import Mathlib

/-!
Verification of `source/core/mcu/media/MediaRecorder.cpp` (namespace `mcu`).

The recorder is shallowly embedded as a pure state machine: the fields of the
C++ `MediaRecorder` object become a Lean structure, each externally triggered
piece of code (an `onFrame` call, one iteration of the `recordLoop` writer
thread, `close`, the destructor) becomes a pure function from state to state,
and an execution is a list of such events folded over the initial state.
Concurrency is modelled by serializing the events in an arbitrary order and by
treating the outcomes of the external libav calls (`avformat_new_stream`,
`avio_open`, `avformat_write_header`) and the wall clock (`gettimeofday`) as
oracle inputs carried by each event.

Observable effects on the container collaborator are recorded in the state:
the list of packets handed to `av_write_frame` (in call order), and counters
for `avformat_write_header`, `av_write_trailer` and `avformat_free_context`
calls.

`woogeen_base::MediaFrameQueue` is not part of the source tree; it is
modelled from the spec (section 4.1) as a FIFO list: `pushFrame` appends at
the tail and `popFrame` takes the head, pop order equals push order.
-/

namespace Mcu

/-- Frame formats distinguished by `MediaRecorder::onFrame`
(`FRAME_FORMAT_VP8`, `FRAME_FORMAT_PCMU`, and everything else, which the
`default` case ignores). -/
inductive FrameFormat where
  | vp8
  | pcmu
  | otherFormat
deriving DecidableEq, Repr

/-- Codec identifiers returned by the payload-type switches
(`AV_CODEC_ID_VP8`, `AV_CODEC_ID_H264`, `AV_CODEC_ID_PCM_MULAW`,
`AV_CODEC_ID_OPUS`). -/
inductive AVCodecID where
  | vp8
  | h264
  | pcmMulaw
  | opus
deriving DecidableEq, Repr

/-- Modelled from the spec: the RTP payload-type constants come from
`rtputils.h`, which is outside this source tree.  Their exact numeric values
are irrelevant here because `payloadType2VideoCodecID` is only ever applied
to `VP8_90000_PT` and `payloadType2AudioCodecID` only to `PCMU_8000_PT`,
each of which hits its dedicated switch case. -/
def VP8_90000_PT : Nat := 100

def H264_90000_PT : Nat := 127

def PCMU_8000_PT : Nat := 0

def OPUS_48000_PT : Nat := 120

/-- The switch `payloadType2VideoCodecID` from MediaRecorder.cpp. -/
def payloadType2VideoCodecID (payloadType : Nat) : AVCodecID :=
  if payloadType = VP8_90000_PT then AVCodecID.vp8
  else if payloadType = H264_90000_PT then AVCodecID.h264
  else AVCodecID.vp8

/-- The switch `payloadType2AudioCodecID` from MediaRecorder.cpp. -/
def payloadType2AudioCodecID (payloadType : Nat) : AVCodecID :=
  if payloadType = PCMU_8000_PT then AVCodecID.pcmMulaw
  else if payloadType = OPUS_48000_PT then AVCodecID.opus
  else AVCodecID.pcmMulaw

/-- The fields of `woogeen_base::Frame` that `MediaRecorder::onFrame` reads:
`format`, `payload` (modelled as an identifier for the byte buffer),
`length`, `timeStamp`, and the `additionalInfo` union (video width/height,
audio channels/sampleRate). -/
structure Frame where
  format : FrameFormat
  payload : Nat
  length : Nat
  timeStamp : Nat
  width : Nat
  height : Nat
  channels : Nat
  sampleRate : Nat
deriving DecidableEq, Repr

/-- A queued frame as produced by `MediaFrameQueue::pushFrame(payload,
length, timeStamp)` and consumed through `popFrame` as a
`woogeen_base::EncodedFrame` with `m_payloadData`/`m_payloadSize`.  The
capture timestamp is retained so that the write paths can be seen not to use
it. -/
structure EncodedFrame where
  payloadData : Nat
  payloadSize : Nat
  timeStamp : Nat
deriving DecidableEq, Repr

/-- The fields of an `AVStream` (with its `AVCodecContext`) that
`MediaRecorder` sets: the codec id, the stream time base (always with
numerator 1 here), and the type-specific parameters. -/
structure AVStream where
  codecId : AVCodecID
  timeBaseNum : Nat
  timeBaseDen : Nat
  width : Nat
  height : Nat
  channels : Nat
  sampleRate : Nat
deriving DecidableEq, Repr

/-- A packet handed to `av_write_frame`: `avpkt.data`, `avpkt.size`,
`avpkt.pts`, `avpkt.stream_index`. -/
structure AVPacket where
  data : Nat
  size : Nat
  pts : Nat
  streamIndex : Nat
deriving DecidableEq, Repr

/-- The `woogeen_base::MediaMuxer` context status values
(`Context_EMPTY`, `Context_READY`, `Context_ERROR`). -/
inductive ContextStatus where
  | empty
  | ready
  | error
deriving DecidableEq, Repr

/-- The mutable state of a `MediaRecorder` object together with the record of
its observable calls into the container library.  `hasContext` models
`m_context != NULL`; `loopAlive` models the writer thread still being inside
`recordLoop` (it becomes false when the loop returns or exits);
`formatNoFile` models the `AVFMT_NOFILE` bit of the guessed output format.
`written` is the ordered list of packets passed to `av_write_frame`;
`headerWrites`, `trailerWrites` and `contextReleases` count the calls to
`avformat_write_header`, `av_write_trailer` and `avformat_free_context`. -/
structure MediaRecorder where
  videoStream : Option AVStream
  audioStream : Option AVStream
  hasContext : Bool
  formatNoFile : Bool
  muxing : Bool
  loopAlive : Bool
  status : ContextStatus
  recordStartTime : Nat
  videoQueue : List EncodedFrame
  audioQueue : List EncodedFrame
  written : List AVPacket
  headerWrites : Nat
  trailerWrites : Nat
  contextReleases : Nat
deriving DecidableEq, Repr

/-- State after the constructor and `init()` succeed: streams null, context
allocated, `m_muxing = true`, writer thread started inside `recordLoop`,
status `Context_EMPTY`, both queues empty, no container calls made yet. -/
def MediaRecorder.create (recordStartTime : Nat) (formatNoFile : Bool) : MediaRecorder :=
  { videoStream := none
    audioStream := none
    hasContext := true
    formatNoFile := formatNoFile
    muxing := true
    loopAlive := true
    status := ContextStatus.empty
    recordStartTime := recordStartTime
    videoQueue := []
    audioQueue := []
    written := []
    headerWrites := 0
    trailerWrites := 0
    contextReleases := 0 }

/-- The value read by the expression `m_videoStream->time_base.den`; the
`none` branch stands for the null-pointer dereference and is proved
unreachable on the paths that perform the read. -/
def MediaRecorder.videoTimeBaseDen (s : MediaRecorder) : Nat :=
  match s.videoStream with
  | some vs => vs.timeBaseDen
  | none => 0

/-- Method `MediaRecorder::addVideoStream`: on `avformat_new_stream` failure set
`m_status = Context_ERROR` and return; otherwise fill in the codec context
(`codec_id`, width, height), set `stream->time_base = {1, 30}` and store the
stream in `m_videoStream`. -/
def MediaRecorder.addVideoStream (s : MediaRecorder) (codecId : AVCodecID)
    (width height : Nat) (allocOk : Bool) : MediaRecorder :=
  if allocOk = false then { s with status := ContextStatus.error }
  else
    let stream : AVStream :=
      { codecId := codecId
        timeBaseNum := 1
        timeBaseDen := 30
        width := width
        height := height
        channels := 0
        sampleRate := 0 }
    { s with videoStream := some stream }

/-- Method `MediaRecorder::addAudioStream`: on `avformat_new_stream` failure set
`m_status = Context_ERROR` and return; otherwise fill in the codec context
(`codec_id`, channels, sample rate), set
`stream->time_base = {1, c->sample_rate}` and store the stream in
`m_audioStream`. -/
def MediaRecorder.addAudioStream (s : MediaRecorder) (codecId : AVCodecID)
    (nbChannels sampleRate : Nat) (allocOk : Bool) : MediaRecorder :=
  if allocOk = false then { s with status := ContextStatus.error }
  else
    let stream : AVStream :=
      { codecId := codecId
        timeBaseNum := 1
        timeBaseDen := sampleRate
        width := 0
        height := 0
        channels := nbChannels
        sampleRate := sampleRate }
    { s with audioStream := some stream }

/-- Method `MediaRecorder::onFrame`: drop everything while in `Context_ERROR`;
on a VP8 frame lazily add the video stream, then enqueue; on a PCMU frame
add the audio stream only when the video stream already exists, then
enqueue; ignore other formats.  `allocOk` is the oracle for the
`avformat_new_stream` call a lazy stream creation may perform; note that
the frame is pushed even when stream creation just failed, exactly as in
the source. -/
def MediaRecorder.onFrame (s : MediaRecorder) (f : Frame) (allocOk : Bool) : MediaRecorder :=
  if s.status = ContextStatus.error then s
  else
    match f.format with
    | FrameFormat.vp8 =>
      let s1 := if s.videoStream.isNone then
          s.addVideoStream (payloadType2VideoCodecID VP8_90000_PT) f.width f.height allocOk
        else s
      { s1 with videoQueue :=
          s1.videoQueue ++ [{ payloadData := f.payload, payloadSize := f.length, timeStamp := f.timeStamp }] }
    | FrameFormat.pcmu =>
      let s1 := if s.videoStream.isSome && s.audioStream.isNone then
          s.addAudioStream (payloadType2AudioCodecID PCMU_8000_PT) f.channels f.sampleRate allocOk
        else s
      { s1 with audioQueue :=
          s1.audioQueue ++ [{ payloadData := f.payload, payloadSize := f.length, timeStamp := f.timeStamp }] }
    | FrameFormat.otherFormat => s

/-- Method `MediaRecorder::writeVideoFrame`: return if `m_videoStream` is null,
otherwise compute `timestampToWrite = (now - m_recordStartTime) /
(1000 / m_videoStream->time_base.den)` from the wall clock and hand
`av_write_frame` a packet with `stream_index = 0`.  The frame's own capture
timestamp is not read. -/
def MediaRecorder.writeVideoFrame (s : MediaRecorder) (now : Nat) (f : EncodedFrame) : MediaRecorder :=
  if s.videoStream.isNone then s
  else
    let timestampToWrite := (now - s.recordStartTime) / (1000 / s.videoTimeBaseDen)
    { s with written := s.written ++
        [{ data := f.payloadData, size := f.payloadSize, pts := timestampToWrite, streamIndex := 0 }] }

/-- Method `MediaRecorder::writeAudioFrame`: return if `m_audioStream` is null,
otherwise compute `timestampToWrite = (now - m_recordStartTime) /
(1000 / m_videoStream->time_base.den)` — reading the VIDEO stream's time
base, as the source does — and hand `av_write_frame` a packet with
`stream_index = 1`.  The frame's own capture timestamp is not read. -/
def MediaRecorder.writeAudioFrame (s : MediaRecorder) (now : Nat) (f : EncodedFrame) : MediaRecorder :=
  if s.audioStream.isNone then s
  else
    let timestampToWrite := (now - s.recordStartTime) / (1000 / s.videoTimeBaseDen)
    { s with written := s.written ++
        [{ data := f.payloadData, size := f.payloadSize, pts := timestampToWrite, streamIndex := 1 }] }

/-- The drain half of a `recordLoop` iteration: pop every audio frame and
write it via `writeAudioFrame`, then pop every video frame and write it via
`writeVideoFrame`.  The wall clock is sampled once per iteration in this
model. -/
def MediaRecorder.drainQueues (s : MediaRecorder) (now : Nat) : MediaRecorder :=
  let s1 := s.audioQueue.foldl (fun t f => t.writeAudioFrame now f) s
  let s2 := { s1 with audioQueue := [] }
  let s3 := s2.videoQueue.foldl (fun t f => t.writeVideoFrame now f) s2
  { s3 with videoQueue := [] }

/-- One iteration of `MediaRecorder::recordLoop`.  The loop has exited when
`loopAlive` is false; it exits when `m_muxing` is false.  In `Context_EMPTY`
with both streams present it opens the output file (unless the format has
`AVFMT_NOFILE`; failure is `Context_ERROR` and return), calls
`avformat_write_header` (failure is `Context_ERROR` and return; success is
`Context_READY`) and falls through to the drain; without both streams it
sleeps and retries.  In `Context_READY` it drains; in `Context_ERROR` it
returns.  `openOk` and `headerOk` are the oracles for `avio_open` and
`avformat_write_header`; `now` is the `gettimeofday` reading used by the
write paths of this iteration. -/
def MediaRecorder.loopIterate (s : MediaRecorder) (openOk headerOk : Bool) (now : Nat) : MediaRecorder :=
  if s.loopAlive = false then s
  else if s.muxing = false then { s with loopAlive := false }
  else
    match s.status with
    | ContextStatus.empty =>
      if s.audioStream.isSome && s.videoStream.isSome then
        if s.formatNoFile = false && openOk = false then
          { s with status := ContextStatus.error, loopAlive := false }
        else
          let s1 := { s with headerWrites := s.headerWrites + 1 }
          if headerOk = false then
            { s1 with status := ContextStatus.error, loopAlive := false }
          else
            MediaRecorder.drainQueues { s1 with status := ContextStatus.ready } now
      else s
    | ContextStatus.ready => s.drainQueues now
    | ContextStatus.error => { s with loopAlive := false }

/-- Method `MediaRecorder::close`: clear `m_muxing` and join the writer thread;
call `av_write_trailer` iff both streams and the context are non-null;
close the codecs; then, iff the context is non-null, close the output file
and free the context, nulling `m_context`. -/
def MediaRecorder.close (s : MediaRecorder) : MediaRecorder :=
  let s1 := { s with muxing := false, loopAlive := false }
  let s2 := if s1.audioStream.isSome && s1.videoStream.isSome && s1.hasContext then
      { s1 with trailerWrites := s1.trailerWrites + 1 }
    else s1
  if s2.hasContext then
    { s2 with contextReleases := s2.contextReleases + 1, hasContext := false }
  else s2

/-- Destructor `MediaRecorder::~MediaRecorder`: call `close()` iff `m_muxing` is still
set. -/
def MediaRecorder.destruct (s : MediaRecorder) : MediaRecorder :=
  if s.muxing then s.close else s

/-- An externally triggered piece of recorder code, with its oracle inputs:
a producer's `onFrame` call, one writer-loop iteration, `close`, or the
destructor. -/
inductive Event where
  | frame (f : Frame) (allocOk : Bool)
  | loopIter (openOk headerOk : Bool) (now : Nat)
  | closeCall
  | destructCall
deriving DecidableEq, Repr

/-- Apply one event to the recorder state. -/
def step (s : MediaRecorder) : Event → MediaRecorder
  | Event.frame f allocOk => s.onFrame f allocOk
  | Event.loopIter openOk headerOk now => s.loopIterate openOk headerOk now
  | Event.closeCall => s.close
  | Event.destructCall => s.destruct

/-- Run a serialized trace of events from a state. -/
def run (s : MediaRecorder) (es : List Event) : MediaRecorder :=
  es.foldl step s

/-- The packet `writeVideoFrame` builds for a queued frame at wall-clock
time `now`. -/
def videoPacketOf (s : MediaRecorder) (now : Nat) (f : EncodedFrame) : AVPacket :=
  { data := f.payloadData
    size := f.payloadSize
    pts := (now - s.recordStartTime) / (1000 / s.videoTimeBaseDen)
    streamIndex := 0 }

/-- The packet `writeAudioFrame` builds for a queued frame at wall-clock
time `now`; its timestamp divisor also comes from the video stream's time
base. -/
def audioPacketOf (s : MediaRecorder) (now : Nat) (f : EncodedFrame) : AVPacket :=
  { data := f.payloadData
    size := f.payloadSize
    pts := (now - s.recordStartTime) / (1000 / s.videoTimeBaseDen)
    streamIndex := 1 }

theorem writeAudioFrame_of_isSome (s : MediaRecorder) (now : Nat) (f : EncodedFrame)
    (ha : s.audioStream.isSome = true) :
    s.writeAudioFrame now f = { s with written := s.written ++ [audioPacketOf s now f] } := by
  have hnn : s.audioStream.isNone = false := by
    cases h : s.audioStream
    · rw [h] at ha; simp at ha
    · simp [h]
  unfold MediaRecorder.writeAudioFrame
  simp [hnn, audioPacketOf]

theorem writeVideoFrame_of_isSome (s : MediaRecorder) (now : Nat) (f : EncodedFrame)
    (hv : s.videoStream.isSome = true) :
    s.writeVideoFrame now f = { s with written := s.written ++ [videoPacketOf s now f] } := by
  have hnn : s.videoStream.isNone = false := by
    cases h : s.videoStream
    · rw [h] at hv; simp at hv
    · simp [h]
  unfold MediaRecorder.writeVideoFrame
  simp [hnn, videoPacketOf]

theorem writeAudioFrame_of_none (s : MediaRecorder) (now : Nat) (f : EncodedFrame)
    (ha : s.audioStream.isSome = false) :
    s.writeAudioFrame now f = s := by
  have hnn : s.audioStream.isNone = true := by
    cases h : s.audioStream
    · simp [h]
    · rw [h] at ha; simp at ha
  unfold MediaRecorder.writeAudioFrame
  simp [hnn]

theorem writeVideoFrame_of_none (s : MediaRecorder) (now : Nat) (f : EncodedFrame)
    (hv : s.videoStream.isSome = false) :
    s.writeVideoFrame now f = s := by
  have hnn : s.videoStream.isNone = true := by
    cases h : s.videoStream
    · simp [h]
    · rw [h] at hv; simp at hv
  unfold MediaRecorder.writeVideoFrame
  simp [hnn]

theorem foldl_writeAudioFrame (now : Nat) (l : List EncodedFrame) :
    ∀ s : MediaRecorder, l.foldl (fun t f => t.writeAudioFrame now f) s =
      { s with written := s.written ++
          (if s.audioStream.isSome = true then l.map (audioPacketOf s now) else []) } := by
  induction l with
  | nil =>
    intro s
    cases ha : s.audioStream.isSome <;> simp
  | cons f l ih =>
    intro s
    rw [List.foldl_cons]
    cases ha : s.audioStream.isSome with
    | true =>
      rw [writeAudioFrame_of_isSome s now f ha, ih]
      have hcast : List.map (audioPacketOf { s with written := s.written ++ [audioPacketOf s now f] } now) l
          = List.map (audioPacketOf s now) l := rfl
      simp only [hcast, ha, if_true]
      simp [List.append_assoc]
    | false =>
      rw [writeAudioFrame_of_none s now f ha, ih]
      simp [ha]

theorem foldl_writeVideoFrame (now : Nat) (l : List EncodedFrame) :
    ∀ s : MediaRecorder, l.foldl (fun t f => t.writeVideoFrame now f) s =
      { s with written := s.written ++
          (if s.videoStream.isSome = true then l.map (videoPacketOf s now) else []) } := by
  induction l with
  | nil =>
    intro s
    cases hv : s.videoStream.isSome <;> simp
  | cons f l ih =>
    intro s
    rw [List.foldl_cons]
    cases hv : s.videoStream.isSome with
    | true =>
      rw [writeVideoFrame_of_isSome s now f hv, ih]
      have hcast : List.map (videoPacketOf { s with written := s.written ++ [videoPacketOf s now f] } now) l
          = List.map (videoPacketOf s now) l := rfl
      simp only [hcast, hv, if_true]
      simp [List.append_assoc]
    | false =>
      rw [writeVideoFrame_of_none s now f hv, ih]
      simp [hv]

/-- Unconditional characterization of the drain half of a loop iteration:
audio frames become packets (in queue order) before video frames, and both
queues end up empty. -/
theorem drainQueues_eq (s : MediaRecorder) (now : Nat) :
    s.drainQueues now = { s with
      audioQueue := []
      videoQueue := []
      written := s.written ++
        (if s.audioStream.isSome = true then s.audioQueue.map (audioPacketOf s now) else []) ++
        (if s.videoStream.isSome = true then s.videoQueue.map (videoPacketOf s now) else []) } := by
  unfold MediaRecorder.drainQueues
  simp only [foldl_writeAudioFrame, foldl_writeVideoFrame]
  simp only [List.append_assoc]
  congr 1

theorem run_nil (s : MediaRecorder) : run s [] = s := rfl

theorem run_cons (s : MediaRecorder) (e : Event) (es : List Event) :
    run s (e :: es) = run (step s e) es := rfl

theorem run_preserve (P : MediaRecorder → Prop)
    (hstep : ∀ s e, P s → P (step s e)) :
    ∀ (es : List Event) (s : MediaRecorder), P s → P (run s es) := by
  intro es
  induction es with
  | nil => intro s hs; exact hs
  | cons e es ih => intro s hs; exact ih (step s e) (hstep s e hs)

/-- Facts maintained by every reachable recorder state: the audio stream
exists only if the video stream does; the video time base denominator is
always 30 and the audio one is the sample rate; the header is unwritten
while the status is still `Context_EMPTY` and is written at most once; a
live writer loop implies a live context; trailer/release happen only while
the context is live and at most once; `Context_READY` implies both streams
exist. -/
def Inv (s : MediaRecorder) : Prop :=
  (s.audioStream.isSome = true → s.videoStream.isSome = true) ∧
  (∀ vs, s.videoStream = some vs → vs.timeBaseDen = 30) ∧
  (∀ a, s.audioStream = some a → a.timeBaseDen = a.sampleRate) ∧
  (s.status = ContextStatus.empty → s.headerWrites = 0) ∧
  s.headerWrites ≤ 1 ∧
  (s.loopAlive = true → s.hasContext = true) ∧
  (s.hasContext = true → s.trailerWrites = 0 ∧ s.contextReleases = 0) ∧
  s.trailerWrites ≤ 1 ∧
  s.contextReleases ≤ 1 ∧
  (s.status = ContextStatus.ready → s.audioStream.isSome = true ∧ s.videoStream.isSome = true)

theorem inv_create (t0 : Nat) (nofile : Bool) : Inv (MediaRecorder.create t0 nofile) := by
  unfold Inv MediaRecorder.create
  simp

theorem inv_onFrame (s : MediaRecorder) (f : Frame) (ok : Bool) (h : Inv s) :
    Inv (s.onFrame f ok) := by
  obtain ⟨h1, h2, h3, h4, h5, h6, h7, h8, h9, h10⟩ := h
  unfold MediaRecorder.onFrame
  split
  · exact ⟨h1, h2, h3, h4, h5, h6, h7, h8, h9, h10⟩
  rename_i herr
  split
  · -- VP8 frame
    unfold MediaRecorder.addVideoStream
    split
    · -- lazy add of the video stream
      split
      · -- avformat_new_stream failed: status becomes error
        refine ⟨h1, h2, h3, ?_, h5, h6, h7, h8, h9, ?_⟩ <;> intro hx <;> simp_all
      · -- video stream installed with time base {1, 30}
        refine ⟨?_, ?_, h3, h4, h5, h6, h7, h8, h9, ?_⟩
        · intro _; simp
        · intro vs hvs
          simp at hvs
          rw [← hvs]
        · intro hst
          simp_all
    · exact ⟨h1, h2, h3, h4, h5, h6, h7, h8, h9, h10⟩
  · -- PCMU frame
    unfold MediaRecorder.addAudioStream
    split
    · rename_i hguard
      split
      · -- avformat_new_stream failed: status becomes error
        refine ⟨h1, h2, h3, ?_, h5, h6, h7, h8, h9, ?_⟩ <;> intro hx <;> simp_all
      · -- audio stream installed with time base {1, sampleRate}
        refine ⟨?_, h2, ?_, h4, h5, h6, h7, h8, h9, ?_⟩
        · intro _
          simp at hguard
          exact hguard.1
        · intro a ha
          simp at ha
          rw [← ha]
        · intro hst
          refine ⟨by simp, ?_⟩
          simp at hguard
          exact hguard.1
    · exact ⟨h1, h2, h3, h4, h5, h6, h7, h8, h9, h10⟩
  · exact ⟨h1, h2, h3, h4, h5, h6, h7, h8, h9, h10⟩

theorem inv_loopIterate (s : MediaRecorder) (o hOk : Bool) (now : Nat) (h : Inv s) :
    Inv (s.loopIterate o hOk now) := by
  obtain ⟨h1, h2, h3, h4, h5, h6, h7, h8, h9, h10⟩ := h
  unfold MediaRecorder.loopIterate
  split
  · exact ⟨h1, h2, h3, h4, h5, h6, h7, h8, h9, h10⟩
  split
  · refine ⟨h1, h2, h3, h4, h5, ?_, h7, h8, h9, h10⟩
    simp
  split
  · -- Context_EMPTY branch
    rename_i hempty
    split
    · rename_i hboth
      rw [Bool.and_eq_true] at hboth
      split
      · -- avio_open failed
        refine ⟨h1, h2, h3, ?_, h5, ?_, h7, h8, h9, ?_⟩ <;> intro hx <;> simp_all
      · -- header written
        have hw0 : s.headerWrites = 0 := h4 hempty
        split
        · -- avformat_write_header failed
          refine ⟨h1, h2, h3, ?_, ?_, ?_, h7, h8, h9, ?_⟩ <;> simp_all
        · -- success: Context_READY, then drain
          rw [drainQueues_eq]
          refine ⟨h1, h2, h3, ?_, ?_, ?_, h7, h8, h9, ?_⟩ <;> simp_all
    · exact ⟨h1, h2, h3, h4, h5, h6, h7, h8, h9, h10⟩
  · -- Context_READY branch
    rw [drainQueues_eq]
    exact ⟨h1, h2, h3, h4, h5, h6, h7, h8, h9, h10⟩
  · -- Context_ERROR branch
    exact ⟨h1, h2, h3, h4, h5, fun hx => by simp_all, h7, h8, h9, h10⟩

theorem inv_close (s : MediaRecorder) (h : Inv s) : Inv s.close := by
  obtain ⟨h1, h2, h3, h4, h5, h6, h7, h8, h9, h10⟩ := h
  unfold MediaRecorder.close
  dsimp only
  split
  · rename_i hcond
    split
    · rename_i hctx
      simp only [Bool.and_eq_true] at hcond
      have := h7 hcond.2
      refine ⟨h1, h2, h3, h4, h5, ?_, ?_, ?_, ?_, h10⟩ <;> simp_all
    · rename_i hctx
      simp only [Bool.and_eq_true] at hcond
      have := h7 hcond.2
      simp_all
  · split
    · rename_i hctx
      have := h7 (by simpa using hctx)
      refine ⟨h1, h2, h3, h4, h5, ?_, ?_, ?_, ?_, h10⟩ <;> simp_all
    · exact ⟨h1, h2, h3, h4, h5, fun hx => by simp_all, h7, h8, h9, h10⟩

theorem inv_destruct (s : MediaRecorder) (h : Inv s) : Inv s.destruct := by
  unfold MediaRecorder.destruct
  split
  · exact inv_close s h
  · exact h

theorem inv_step (s : MediaRecorder) (e : Event) (h : Inv s) : Inv (step s e) := by
  cases e with
  | frame f ok => exact inv_onFrame s f ok h
  | loopIter o hOk now => exact inv_loopIterate s o hOk now h
  | closeCall => exact inv_close s h
  | destructCall => exact inv_destruct s h

theorem inv_run (t0 : Nat) (nofile : Bool) (es : List Event) :
    Inv (run (MediaRecorder.create t0 nofile) es) :=
  run_preserve Inv inv_step es (MediaRecorder.create t0 nofile) (inv_create t0 nofile)

theorem onFrame_const (s : MediaRecorder) (f : Frame) (ok : Bool) :
    (s.onFrame f ok).written = s.written ∧
    (s.onFrame f ok).headerWrites = s.headerWrites ∧
    (s.onFrame f ok).trailerWrites = s.trailerWrites ∧
    (s.onFrame f ok).contextReleases = s.contextReleases ∧
    (s.onFrame f ok).hasContext = s.hasContext ∧
    (s.onFrame f ok).muxing = s.muxing ∧
    (s.onFrame f ok).loopAlive = s.loopAlive ∧
    (s.onFrame f ok).recordStartTime = s.recordStartTime := by
  unfold MediaRecorder.onFrame MediaRecorder.addVideoStream MediaRecorder.addAudioStream
  repeat' split
  all_goals simp

theorem close_const (s : MediaRecorder) :
    s.close.status = s.status ∧
    s.close.written = s.written ∧
    s.close.headerWrites = s.headerWrites ∧
    s.close.videoStream = s.videoStream ∧
    s.close.audioStream = s.audioStream ∧
    s.close.videoQueue = s.videoQueue ∧
    s.close.audioQueue = s.audioQueue ∧
    s.close.recordStartTime = s.recordStartTime ∧
    s.close.muxing = false ∧
    s.close.loopAlive = false := by
  unfold MediaRecorder.close
  dsimp only
  repeat' split
  all_goals simp

theorem loopIterate_const (s : MediaRecorder) (o hOk : Bool) (now : Nat) :
    (s.loopIterate o hOk now).audioStream = s.audioStream ∧
    (s.loopIterate o hOk now).videoStream = s.videoStream ∧
    (s.loopIterate o hOk now).hasContext = s.hasContext ∧
    (s.loopIterate o hOk now).trailerWrites = s.trailerWrites ∧
    (s.loopIterate o hOk now).contextReleases = s.contextReleases ∧
    (s.loopIterate o hOk now).recordStartTime = s.recordStartTime ∧
    (s.loopIterate o hOk now).muxing = s.muxing ∧
    (s.loopIterate o hOk now).formatNoFile = s.formatNoFile := by
  unfold MediaRecorder.loopIterate
  repeat' split
  all_goals simp [drainQueues_eq]

theorem step_recordStartTime (s : MediaRecorder) (e : Event) :
    (step s e).recordStartTime = s.recordStartTime := by
  cases e with
  | frame f ok => exact (onFrame_const s f ok).2.2.2.2.2.2.2
  | loopIter o hOk now => exact (loopIterate_const s o hOk now).2.2.2.2.2.1
  | closeCall => exact (close_const s).2.2.2.2.2.2.2.1
  | destructCall =>
    show s.destruct.recordStartTime = s.recordStartTime
    unfold MediaRecorder.destruct
    split
    · exact (close_const s).2.2.2.2.2.2.2.1
    · rfl

theorem run_recordStartTime (s : MediaRecorder) (es : List Event) :
    (run s es).recordStartTime = s.recordStartTime := by
  induction es generalizing s with
  | nil => rfl
  | cons e es ih => rw [run_cons, ih, step_recordStartTime]

theorem onFrame_error (s : MediaRecorder) (f : Frame) (ok : Bool)
    (he : s.status = ContextStatus.error) : s.onFrame f ok = s := by
  unfold MediaRecorder.onFrame
  rw [if_pos he]

theorem loopIterate_error_noop (s : MediaRecorder) (o hOk : Bool) (now : Nat)
    (he : s.status = ContextStatus.error) :
    (s.loopIterate o hOk now).written = s.written ∧
    (s.loopIterate o hOk now).audioQueue = s.audioQueue ∧
    (s.loopIterate o hOk now).videoQueue = s.videoQueue ∧
    (s.loopIterate o hOk now).status = ContextStatus.error := by
  unfold MediaRecorder.loopIterate
  split
  · exact ⟨rfl, rfl, rfl, he⟩
  split
  · exact ⟨rfl, rfl, rfl, he⟩
  · simp [he]

theorem step_error_absorb (s : MediaRecorder) (e : Event)
    (he : s.status = ContextStatus.error) :
    (step s e).status = ContextStatus.error ∧ (step s e).written = s.written := by
  cases e with
  | frame f ok =>
    show (s.onFrame f ok).status = ContextStatus.error ∧ (s.onFrame f ok).written = s.written
    rw [onFrame_error s f ok he]
    exact ⟨he, rfl⟩
  | loopIter o hOk now =>
    obtain ⟨hw, _, _, hst⟩ := loopIterate_error_noop s o hOk now he
    exact ⟨hst, hw⟩
  | closeCall =>
    obtain ⟨h1, h2, _⟩ := close_const s
    exact ⟨h1.trans he, h2⟩
  | destructCall =>
    show s.destruct.status = ContextStatus.error ∧ s.destruct.written = s.written
    unfold MediaRecorder.destruct
    split
    · obtain ⟨h1, h2, _⟩ := close_const s
      exact ⟨h1.trans he, h2⟩
    · exact ⟨he, rfl⟩

/-- Case analysis of one writer-loop iteration with respect to the header:
either `avformat_write_header` is not called, or it is called exactly when
the loop is live, status is `Context_EMPTY` and both streams exist, and the
status afterwards is `Context_READY` on success and `Context_ERROR` on
failure. -/
theorem loopIterate_header_cases (s : MediaRecorder) (o hOk : Bool) (now : Nat) :
    ((s.loopIterate o hOk now).headerWrites = s.headerWrites) ∨
    (s.loopAlive = true ∧ s.muxing = true ∧ s.status = ContextStatus.empty ∧
     s.audioStream.isSome = true ∧ s.videoStream.isSome = true ∧
     (s.loopIterate o hOk now).headerWrites = s.headerWrites + 1 ∧
     (s.loopIterate o hOk now).status =
       (if hOk = true then ContextStatus.ready else ContextStatus.error)) := by
  unfold MediaRecorder.loopIterate
  split
  · exact Or.inl rfl
  split
  · exact Or.inl rfl
  rename_i halive hmux
  split
  · rename_i hempty
    split
    · rename_i hboth
      rw [Bool.and_eq_true] at hboth
      split
      · exact Or.inl rfl
      · split
        · rename_i hhdr
          refine Or.inr ⟨?_, ?_, hempty, hboth.1, hboth.2, rfl, ?_⟩
          · simpa using halive
          · simpa using hmux
          · rw [hhdr]
            simp
        · rename_i hhdr
          have hok : hOk = true := by
            cases hOk
            · exact absurd rfl hhdr
            · rfl
          refine Or.inr ⟨?_, ?_, hempty, hboth.1, hboth.2, ?_, ?_⟩
          · simpa using halive
          · simpa using hmux
          · rw [drainQueues_eq]
          · rw [drainQueues_eq, hok]
            simp
    · exact Or.inl rfl
  · rw [drainQueues_eq]
    exact Or.inl rfl
  · exact Or.inl rfl

/-- A VP8 video frame as delivered by the dispatcher. -/
def sampleVideoFrame : Frame :=
  { format := FrameFormat.vp8, payload := 1, length := 10, timeStamp := 777,
    width := 640, height := 480, channels := 0, sampleRate := 0 }

def sampleVideoFrame2 : Frame :=
  { format := FrameFormat.vp8, payload := 2, length := 10, timeStamp := 778,
    width := 640, height := 480, channels := 0, sampleRate := 0 }

def sampleVideoFrame3 : Frame :=
  { format := FrameFormat.vp8, payload := 3, length := 10, timeStamp := 779,
    width := 640, height := 480, channels := 0, sampleRate := 0 }

/-- A PCMU audio frame (8 kHz mono) as delivered by the dispatcher. -/
def sampleAudioFrame : Frame :=
  { format := FrameFormat.pcmu, payload := 4, length := 5, timeStamp := 888,
    width := 0, height := 0, channels := 1, sampleRate := 8000 }

def sampleAudioFrame2 : Frame :=
  { format := FrameFormat.pcmu, payload := 9, length := 5, timeStamp := 999,
    width := 0, height := 0, channels := 1, sampleRate := 8000 }

/-- One video and one audio frame arrive; both streams get created. -/
def bothStreamsTrace : List Event :=
  [Event.frame sampleVideoFrame true, Event.frame sampleAudioFrame true]

/-- Both streams created, then a loop iteration writes the header
successfully. -/
def readyTrace : List Event :=
  [Event.frame sampleVideoFrame true, Event.frame sampleAudioFrame true,
   Event.loopIter true true 40]

/-- Both streams created, then `avformat_write_header` fails. -/
def headerFailTrace : List Event :=
  [Event.frame sampleVideoFrame true, Event.frame sampleAudioFrame true,
   Event.loopIter true false 10]

/-- Scenario A of the spec: three video frames, then one audio frame, then
one drain cycle. -/
def scenarioATrace : List Event :=
  [Event.frame sampleVideoFrame true, Event.frame sampleVideoFrame2 true,
   Event.frame sampleVideoFrame3 true, Event.frame sampleAudioFrame true,
   Event.loopIter true true 1000]

/-- C1: for every execution, the container header is written at most once
over the whole run, and whenever an event increases the header-write count
the recorder was in `Context_EMPTY` with both track descriptors present,
the count goes from 0 to 1, the event is a writer-loop iteration, and the
status afterwards is `Context_READY` exactly when the header write
succeeded and `Context_ERROR` when it failed. -/
theorem C1_header_write_once (t0 : Nat) (nofile : Bool) (es : List Event) (e : Event)
    (hinc : (step (run (MediaRecorder.create t0 nofile) es) e).headerWrites ≠
      (run (MediaRecorder.create t0 nofile) es).headerWrites) :
    (∀ es2, (run (MediaRecorder.create t0 nofile) es2).headerWrites ≤ 1) ∧
    (run (MediaRecorder.create t0 nofile) es).status = ContextStatus.empty ∧
    (run (MediaRecorder.create t0 nofile) es).audioStream.isSome = true ∧
    (run (MediaRecorder.create t0 nofile) es).videoStream.isSome = true ∧
    (run (MediaRecorder.create t0 nofile) es).headerWrites = 0 ∧
    (step (run (MediaRecorder.create t0 nofile) es) e).headerWrites = 1 ∧
    (∃ o hOk now, e = Event.loopIter o hOk now ∧
      (step (run (MediaRecorder.create t0 nofile) es) e).status =
        (if hOk = true then ContextStatus.ready else ContextStatus.error)) := by
  obtain ⟨_, _, _, h4, h5, _⟩ := inv_run t0 nofile es
  cases e with
  | frame f ok =>
    exact absurd (onFrame_const (run (MediaRecorder.create t0 nofile) es) f ok).2.1 hinc
  | closeCall =>
    exact absurd (close_const (run (MediaRecorder.create t0 nofile) es)).2.2.1 hinc
  | destructCall =>
    have hsame : (run (MediaRecorder.create t0 nofile) es).destruct.headerWrites =
        (run (MediaRecorder.create t0 nofile) es).headerWrites := by
      unfold MediaRecorder.destruct
      split
      · exact (close_const (run (MediaRecorder.create t0 nofile) es)).2.2.1
      · rfl
    exact absurd hsame hinc
  | loopIter o hOk now =>
    rcases loopIterate_header_cases (run (MediaRecorder.create t0 nofile) es) o hOk now with
      hsame | ⟨_, _, hst, hau, hvs, hw, hpost⟩
    · exact absurd hsame hinc
    · refine ⟨fun es2 => (inv_run t0 nofile es2).2.2.2.2.1, hst, hau, hvs, h4 hst, ?_,
        o, hOk, now, rfl, hpost⟩
      rw [show (step (run (MediaRecorder.create t0 nofile) es) (Event.loopIter o hOk now)).headerWrites =
        ((run (MediaRecorder.create t0 nofile) es).loopIterate o hOk now).headerWrites from rfl, hw, h4 hst]

/-- Witness for C1: on the trace where one video and one audio frame arrive
and then a loop iteration runs with all library calls succeeding, the
header-write count becomes exactly 1. -/
theorem C1_header_write_once_witness :
    (step (run (MediaRecorder.create 0 false) bothStreamsTrace)
      (Event.loopIter true true 100)).headerWrites = 1 :=
  (C1_header_write_once 0 false bothStreamsTrace (Event.loopIter true true 100)
    (by decide)).2.2.2.2.2.1

/-- C4: once the status is `Context_ERROR`, every later trace leaves the
status at `Context_ERROR` and hands no further packet to `av_write_frame`. -/
theorem C4_error_terminal (s : MediaRecorder) (es : List Event)
    (he : s.status = ContextStatus.error) :
    (run s es).status = ContextStatus.error ∧ (run s es).written = s.written := by
  induction es generalizing s with
  | nil => exact ⟨he, rfl⟩
  | cons e es ih =>
    rw [run_cons]
    obtain ⟨h1, h2⟩ := step_error_absorb s e he
    obtain ⟨g1, g2⟩ := ih (step s e) h1
    exact ⟨g1, g2.trans h2⟩

/-- Witness for C4: after a header-write failure the state is in error, and
pushing another audio frame, running another loop iteration and closing
leaves the status at error. -/
theorem C4_error_terminal_witness :
    (run (run (MediaRecorder.create 0 false) headerFailTrace)
      [Event.frame sampleAudioFrame2 true, Event.loopIter true true 99,
       Event.closeCall]).status = ContextStatus.error :=
  (C4_error_terminal (run (MediaRecorder.create 0 false) headerFailTrace)
    [Event.frame sampleAudioFrame2 true, Event.loopIter true true 99, Event.closeCall]
    (by decide)).1

/-- Whether a trace contains any VP8 (video) frame delivery. -/
def hasVideoFrame (es : List Event) : Bool :=
  es.any fun e =>
    match e with
    | Event.frame f _ => decide (f.format = FrameFormat.vp8)
    | _ => false

theorem run_no_video_aux (es : List Event) :
    ∀ s : MediaRecorder, hasVideoFrame es = false →
      s.videoStream = none → s.audioStream = none → s.status = ContextStatus.empty →
      (run s es).videoStream = none ∧ (run s es).audioStream = none ∧
      (run s es).status = ContextStatus.empty := by
  induction es with
  | nil => intro s _ hv ha hst; exact ⟨hv, ha, hst⟩
  | cons e es ih =>
    intro s hnv hv ha hst
    rw [run_cons]
    simp only [hasVideoFrame, List.any_cons, Bool.or_eq_false_iff] at hnv
    have hnv2 : hasVideoFrame es = false := hnv.2
    have hstep : (step s e).videoStream = none ∧ (step s e).audioStream = none ∧
        (step s e).status = ContextStatus.empty := by
      cases e with
      | frame f ok =>
        have hfmt : f.format ≠ FrameFormat.vp8 := by
          have := hnv.1
          simp at this
          exact this
        show (s.onFrame f ok).videoStream = none ∧ (s.onFrame f ok).audioStream = none ∧
          (s.onFrame f ok).status = ContextStatus.empty
        unfold MediaRecorder.onFrame
        rw [if_neg (by simp [hst])]
        cases hfm : f.format
        · exact absurd hfm hfmt
        · simp [hv, ha, hst]
        · exact ⟨hv, ha, hst⟩
      | loopIter o hOk now =>
        show (s.loopIterate o hOk now).videoStream = none ∧
          (s.loopIterate o hOk now).audioStream = none ∧
          (s.loopIterate o hOk now).status = ContextStatus.empty
        unfold MediaRecorder.loopIterate
        split
        · exact ⟨hv, ha, hst⟩
        split
        · exact ⟨hv, ha, hst⟩
        · simp only [hst]
          simp [ha, hv, hst]
      | closeCall =>
        obtain ⟨c1, _, _, c4, c5, _⟩ := close_const s
        exact ⟨c4.trans hv, c5.trans ha, c1.trans hst⟩
      | destructCall =>
        show s.destruct.videoStream = none ∧ s.destruct.audioStream = none ∧
          s.destruct.status = ContextStatus.empty
        unfold MediaRecorder.destruct
        split
        · obtain ⟨c1, _, _, c4, c5, _⟩ := close_const s
          exact ⟨c4.trans hv, c5.trans ha, c1.trans hst⟩
        · exact ⟨hv, ha, hst⟩
    exact ih (step s e) hnv2 hstep.1 hstep.2.1 hstep.2.2

/-- C2: in every execution the audio track descriptor exists only if the
video track descriptor does; and on a trace with no video frame at all,
the audio descriptor is still absent, yet a further PCMU frame delivered
through onFrame is appended to the audio queue (not dropped) without
creating the audio track. -/
theorem C2_audio_track_after_video (t0 : Nat) (nofile : Bool) (es : List Event) :
    ((run (MediaRecorder.create t0 nofile) es).audioStream.isSome = true →
      (run (MediaRecorder.create t0 nofile) es).videoStream.isSome = true) ∧
    (hasVideoFrame es = false →
      (run (MediaRecorder.create t0 nofile) es).audioStream = none ∧
      (∀ f ok, f.format = FrameFormat.pcmu →
        (step (run (MediaRecorder.create t0 nofile) es) (Event.frame f ok)).audioQueue =
          (run (MediaRecorder.create t0 nofile) es).audioQueue ++
            [{ payloadData := f.payload, payloadSize := f.length, timeStamp := f.timeStamp }] ∧
        (step (run (MediaRecorder.create t0 nofile) es) (Event.frame f ok)).audioStream = none)) := by
  refine ⟨(inv_run t0 nofile es).1, ?_⟩
  intro hnv
  obtain ⟨hv, ha, hst⟩ :=
    run_no_video_aux es (MediaRecorder.create t0 nofile) hnv rfl rfl rfl
  refine ⟨ha, ?_⟩
  intro f ok hfmt
  show ((run (MediaRecorder.create t0 nofile) es).onFrame f ok).audioQueue = _ ∧
    ((run (MediaRecorder.create t0 nofile) es).onFrame f ok).audioStream = none
  unfold MediaRecorder.onFrame
  rw [if_neg (by simp [hst])]
  rw [hfmt]
  simp [hv, ha]

/-- Witness for C2: with a single audio frame already queued and no video
frame ever delivered, a second audio frame is appended to the audio queue. -/
theorem C2_audio_track_after_video_witness :
    (step (run (MediaRecorder.create 0 false) [Event.frame sampleAudioFrame true])
      (Event.frame sampleAudioFrame2 true)).audioQueue =
      (run (MediaRecorder.create 0 false) [Event.frame sampleAudioFrame true]).audioQueue ++
        [{ payloadData := sampleAudioFrame2.payload, payloadSize := sampleAudioFrame2.length,
           timeStamp := sampleAudioFrame2.timeStamp }] :=
  (((C2_audio_track_after_video 0 false [Event.frame sampleAudioFrame true]).2
    (by decide)).2 sampleAudioFrame2 true (by decide)).1

theorem step_stream_mono (s : MediaRecorder) (e : Event) :
    (s.videoStream.isSome = true → (step s e).videoStream.isSome = true) ∧
    (s.audioStream.isSome = true → (step s e).audioStream.isSome = true) := by
  cases e with
  | frame f ok =>
    show (s.videoStream.isSome = true → (s.onFrame f ok).videoStream.isSome = true) ∧
      (s.audioStream.isSome = true → (s.onFrame f ok).audioStream.isSome = true)
    unfold MediaRecorder.onFrame MediaRecorder.addVideoStream MediaRecorder.addAudioStream
    repeat' split
    all_goals constructor
    all_goals intro h
    all_goals simp_all
  | loopIter o hOk now =>
    obtain ⟨l1, l2, _⟩ := loopIterate_const s o hOk now
    show (s.videoStream.isSome = true → (s.loopIterate o hOk now).videoStream.isSome = true) ∧
      (s.audioStream.isSome = true → (s.loopIterate o hOk now).audioStream.isSome = true)
    rw [l1, l2]
    exact ⟨id, id⟩
  | closeCall =>
    obtain ⟨_, _, _, c4, c5, _⟩ := close_const s
    show (s.videoStream.isSome = true → s.close.videoStream.isSome = true) ∧
      (s.audioStream.isSome = true → s.close.audioStream.isSome = true)
    rw [c4, c5]
    exact ⟨id, id⟩
  | destructCall =>
    show (s.videoStream.isSome = true → s.destruct.videoStream.isSome = true) ∧
      (s.audioStream.isSome = true → s.destruct.audioStream.isSome = true)
    unfold MediaRecorder.destruct
    split
    · obtain ⟨_, _, _, c4, c5, _⟩ := close_const s
      rw [c4, c5]
      exact ⟨id, id⟩
    · exact ⟨id, id⟩

/-- C9: in every reachable state the audio stream descriptor exists only if
the video stream descriptor does, neither descriptor is ever nulled by any
event, and whenever `writeAudioFrame` passes its `m_audioStream != NULL`
guard, `m_videoStream` is non-null, so its `m_videoStream->time_base.den`
read is a safe dereference returning the video time-base denominator. -/
theorem C9_audio_guard_video_safe (t0 : Nat) (nofile : Bool) (es : List Event) :
    ((run (MediaRecorder.create t0 nofile) es).audioStream.isSome = true →
      (run (MediaRecorder.create t0 nofile) es).videoStream.isSome = true) ∧
    (∀ e, (run (MediaRecorder.create t0 nofile) es).videoStream.isSome = true →
      (step (run (MediaRecorder.create t0 nofile) es) e).videoStream.isSome = true) ∧
    (∀ e, (run (MediaRecorder.create t0 nofile) es).audioStream.isSome = true →
      (step (run (MediaRecorder.create t0 nofile) es) e).audioStream.isSome = true) ∧
    (∀ now f, (run (MediaRecorder.create t0 nofile) es).audioStream.isSome = true →
      ∃ vs, (run (MediaRecorder.create t0 nofile) es).videoStream = some vs ∧
        (run (MediaRecorder.create t0 nofile) es).videoTimeBaseDen = vs.timeBaseDen ∧
        (run (MediaRecorder.create t0 nofile) es).writeAudioFrame now f =
          { run (MediaRecorder.create t0 nofile) es with
            written := (run (MediaRecorder.create t0 nofile) es).written ++
              [audioPacketOf (run (MediaRecorder.create t0 nofile) es) now f] }) := by
  refine ⟨(inv_run t0 nofile es).1,
    fun e => (step_stream_mono (run (MediaRecorder.create t0 nofile) es) e).1,
    fun e => (step_stream_mono (run (MediaRecorder.create t0 nofile) es) e).2, ?_⟩
  intro now f hau
  have hv := (inv_run t0 nofile es).1 hau
  obtain ⟨vs, hvs⟩ := Option.isSome_iff_exists.mp hv
  refine ⟨vs, hvs, ?_, writeAudioFrame_of_isSome _ now f hau⟩
  unfold MediaRecorder.videoTimeBaseDen
  rw [hvs]

/-- Witness for C9: on the trace where both streams were created, the audio
descriptor exists and therefore so does the video descriptor. -/
theorem C9_audio_guard_video_safe_witness :
    (run (MediaRecorder.create 0 false) bothStreamsTrace).videoStream.isSome = true :=
  (C9_audio_guard_video_safe 0 false bothStreamsTrace).1 (by decide)

/-- C10: the video time-base denominator of every reachable state is 30,
making the timestamp divisor `1000 / den` equal to 33 (never zero); both
write paths divide by 33; and the audio track's own time base is the
sample rate, which for any sample rate above 1000 Hz would make
`1000 / den` equal 0 in integer arithmetic. -/
theorem C10_timestamp_divisor (t0 : Nat) (nofile : Bool) (es : List Event) :
    (∀ vs, (run (MediaRecorder.create t0 nofile) es).videoStream = some vs →
      vs.timeBaseDen = 30 ∧ 1000 / vs.timeBaseDen = 33 ∧ 1000 / vs.timeBaseDen ≠ 0) ∧
    (∀ now f, (run (MediaRecorder.create t0 nofile) es).audioStream.isSome = true →
      (run (MediaRecorder.create t0 nofile) es).writeAudioFrame now f =
        { run (MediaRecorder.create t0 nofile) es with
          written := (run (MediaRecorder.create t0 nofile) es).written ++
            [{ data := f.payloadData, size := f.payloadSize,
               pts := (now - (run (MediaRecorder.create t0 nofile) es).recordStartTime) / 33,
               streamIndex := 1 }] }) ∧
    (∀ now f, (run (MediaRecorder.create t0 nofile) es).videoStream.isSome = true →
      (run (MediaRecorder.create t0 nofile) es).writeVideoFrame now f =
        { run (MediaRecorder.create t0 nofile) es with
          written := (run (MediaRecorder.create t0 nofile) es).written ++
            [{ data := f.payloadData, size := f.payloadSize,
               pts := (now - (run (MediaRecorder.create t0 nofile) es).recordStartTime) / 33,
               streamIndex := 0 }] }) ∧
    (∀ a, (run (MediaRecorder.create t0 nofile) es).audioStream = some a →
      a.timeBaseDen = a.sampleRate ∧ (1000 < a.timeBaseDen → 1000 / a.timeBaseDen = 0)) := by
  obtain ⟨h1, h2, h3, _⟩ := inv_run t0 nofile es
  have hden : ∀ vs, (run (MediaRecorder.create t0 nofile) es).videoStream = some vs →
      (run (MediaRecorder.create t0 nofile) es).videoTimeBaseDen = 30 := by
    intro vs hvs
    unfold MediaRecorder.videoTimeBaseDen
    rw [hvs]
    exact h2 vs hvs
  refine ⟨?_, ?_, ?_, ?_⟩
  · intro vs hvs
    have := h2 vs hvs
    rw [this]
    norm_num
  · intro now f hau
    have hv := h1 hau
    obtain ⟨vs, hvs⟩ := Option.isSome_iff_exists.mp hv
    rw [writeAudioFrame_of_isSome _ now f hau]
    simp [audioPacketOf, hden vs hvs]
  · intro now f hv
    obtain ⟨vs, hvs⟩ := Option.isSome_iff_exists.mp hv
    rw [writeVideoFrame_of_isSome _ now f hv]
    simp [videoPacketOf, hden vs hvs]
  · intro a ha
    refine ⟨h3 a ha, fun hlt => Nat.div_eq_of_lt hlt⟩

/-- Witness for C10: on the trace where both streams were created, writing
an audio frame at wall-clock 1000 appends a packet whose pts is
(1000 - 0) / 33, computed with the video time-base divisor. -/
theorem C10_timestamp_divisor_witness :
    (run (MediaRecorder.create 0 false) bothStreamsTrace).writeAudioFrame 1000
      { payloadData := 7, payloadSize := 3, timeStamp := 55 } =
      { run (MediaRecorder.create 0 false) bothStreamsTrace with
        written := (run (MediaRecorder.create 0 false) bothStreamsTrace).written ++
          [{ data := 7, size := 3,
             pts := (1000 - (run (MediaRecorder.create 0 false) bothStreamsTrace).recordStartTime) / 33,
             streamIndex := 1 }] } :=
  (C10_timestamp_divisor 0 false bothStreamsTrace).2.1 1000
    { payloadData := 7, payloadSize := 3, timeStamp := 55 } (by decide)

/-- Either a loop iteration hands nothing to `av_write_frame`, or it
appends exactly the drained audio packets followed by the drained video
packets. -/
theorem loopIterate_written_cases (s : MediaRecorder) (o hOk : Bool) (now : Nat) :
    (s.loopIterate o hOk now).written = s.written ∨
    (s.loopIterate o hOk now).written = s.written ++
      (if s.audioStream.isSome = true then s.audioQueue.map (audioPacketOf s now) else []) ++
      (if s.videoStream.isSome = true then s.videoQueue.map (videoPacketOf s now) else []) := by
  unfold MediaRecorder.loopIterate
  split
  · exact Or.inl rfl
  split
  · exact Or.inl rfl
  split
  · split
    · split
      · exact Or.inl rfl
      · split
        · exact Or.inl rfl
        · rw [drainQueues_eq]
          exact Or.inr rfl
    · exact Or.inl rfl
  · rw [drainQueues_eq]
    exact Or.inr rfl
  · exact Or.inl rfl

/-- Counterexample for C3: on the trace where one video and one audio frame
(8 kHz) arrive and the loop drains at wall-clock 1000 ms, the audio packet
is written with pts 30 — the elapsed time scaled into the VIDEO track's
{1,30} time base — while the audio track's own time base is {1,8000}, into
which 1000 ms would scale as 8000; and the code's divisor formula applied
to the audio denominator would be a division by 1000/8000 = 0. -/
theorem C3_counterexample :
    (run (MediaRecorder.create 0 false)
      [Event.frame sampleVideoFrame true, Event.frame sampleAudioFrame true,
       Event.loopIter true true 1000]).written =
      [{ data := 4, size := 5, pts := 30, streamIndex := 1 },
       { data := 1, size := 10, pts := 30, streamIndex := 0 }] ∧
    ((run (MediaRecorder.create 0 false)
      [Event.frame sampleVideoFrame true, Event.frame sampleAudioFrame true,
       Event.loopIter true true 1000]).audioStream.map fun a => a.timeBaseDen) = some 8000 ∧
    (30 : Nat) ≠ 1000 * 8000 / 1000 ∧ (1000 / 8000 : Nat) = 0 := by decide

/-- C3 (amended): every packet handed to `av_write_frame` during a loop
iteration at wall-clock `now` — audio and video alike — carries
`pts = (now − recordStartTime) / 33`, the elapsed wall-clock time scaled
into the VIDEO track's {1,30} time base (not the writing track's own time
base, and never the frame's capture timestamp, which appears nowhere in
the formula). -/
theorem C3_wall_clock_pts (t0 : Nat) (nofile : Bool) (es : List Event) (o hOk : Bool)
    (now : Nat) (p : AVPacket)
    (hp : p ∈ (step (run (MediaRecorder.create t0 nofile) es) (Event.loopIter o hOk now)).written)
    (hnew : p ∉ (run (MediaRecorder.create t0 nofile) es).written) :
    p.pts = (now - t0) / 33 := by
  obtain ⟨h1, h2, _⟩ := inv_run t0 nofile es
  have hstart : (run (MediaRecorder.create t0 nofile) es).recordStartTime = t0 :=
    run_recordStartTime (MediaRecorder.create t0 nofile) es
  have hp' : p ∈ ((run (MediaRecorder.create t0 nofile) es).loopIterate o hOk now).written := hp
  rcases loopIterate_written_cases (run (MediaRecorder.create t0 nofile) es) o hOk now with
    hsame | hdrain
  · rw [hsame] at hp'
    exact absurd hp' hnew
  · rw [hdrain, List.mem_append, List.mem_append] at hp'
    rcases hp' with (hp0 | hpa) | hpv
    · exact absurd hp0 hnew
    · by_cases hau : (run (MediaRecorder.create t0 nofile) es).audioStream.isSome = true
      · rw [if_pos hau] at hpa
        obtain ⟨f, _, rfl⟩ := List.mem_map.mp hpa
        have hv := h1 hau
        obtain ⟨vs, hvs⟩ := Option.isSome_iff_exists.mp hv
        have h30 := h2 vs hvs
        unfold audioPacketOf
        dsimp only
        rw [hstart]
        unfold MediaRecorder.videoTimeBaseDen
        rw [hvs]
        dsimp only
        rw [h30]
      · rw [if_neg hau] at hpa
        simp at hpa
    · by_cases hv : (run (MediaRecorder.create t0 nofile) es).videoStream.isSome = true
      · rw [if_pos hv] at hpv
        obtain ⟨f, _, rfl⟩ := List.mem_map.mp hpv
        obtain ⟨vs, hvs⟩ := Option.isSome_iff_exists.mp hv
        have h30 := h2 vs hvs
        unfold videoPacketOf
        dsimp only
        rw [hstart]
        unfold MediaRecorder.videoTimeBaseDen
        rw [hvs]
        dsimp only
        rw [h30]
      · rw [if_neg hv] at hpv
        simp at hpv

/-- Witness for C3 (amended): the audio packet drained at wall-clock 1000
on the two-stream trace has pts (1000 − 0) / 33 = 30. -/
theorem C3_wall_clock_pts_witness :
    ({ data := 4, size := 5, pts := 30, streamIndex := 1 } : AVPacket).pts = (1000 - 0) / 33 :=
  C3_wall_clock_pts 0 false bothStreamsTrace true true 1000
    { data := 4, size := 5, pts := 30, streamIndex := 1 } (by decide) (by decide)

theorem close_writes_trailer (s : MediaRecorder) (hau : s.audioStream.isSome = true)
    (hv : s.videoStream.isSome = true) (hc : s.hasContext = true) :
    s.close.trailerWrites = s.trailerWrites + 1 ∧
    s.close.contextReleases = s.contextReleases + 1 ∧
    s.close.muxing = false := by
  unfold MediaRecorder.close
  simp [hau, hv, hc]

theorem close_trailer_count (s : MediaRecorder) :
    s.close.trailerWrites = s.trailerWrites +
      (if (s.audioStream.isSome && s.videoStream.isSome && s.hasContext) = true then 1 else 0) := by
  cases hau : s.audioStream.isSome <;> cases hv : s.videoStream.isSome <;>
    cases hc : s.hasContext <;> simp [MediaRecorder.close, hau, hv, hc]

theorem destruct_of_muxing (s : MediaRecorder) (h : s.muxing = true) : s.destruct = s.close := by
  unfold MediaRecorder.destruct
  rw [if_pos h]

theorem destruct_of_not_muxing (s : MediaRecorder) (h : s.muxing = false) : s.destruct = s := by
  unfold MediaRecorder.destruct
  rw [if_neg]
  simp [h]

/-- Counterexample for C5: after a header-write failure (status
`Context_ERROR`), a subsequent audio push leaves the audio queue unchanged —
the frame is dropped, the queue does not grow — and `close()` does call
`av_write_trailer`, because both track descriptors and the context are
still non-null. -/
theorem C5_counterexample :
    (run (MediaRecorder.create 0 false) headerFailTrace).status = ContextStatus.error ∧
    (step (run (MediaRecorder.create 0 false) headerFailTrace)
      (Event.frame sampleAudioFrame2 true)).audioQueue =
      (run (MediaRecorder.create 0 false) headerFailTrace).audioQueue ∧
    (run (MediaRecorder.create 0 false) headerFailTrace).close.trailerWrites = 1 := by decide

/-- C5 (amended): after a header-write failure puts the state machine in
`Context_ERROR`, every subsequent `onFrame` call is dropped outright (the
state, queues included, is unchanged), loop iterations write nothing and
drain nothing, and `close()` terminates with muxing stopped but attempts
exactly one trailer write, since both track descriptors and the context
are still non-null. -/
theorem C5_after_header_failure (t0 : Nat) (nofile : Bool) (es : List Event) (o : Bool)
    (now : Nat)
    (hinc : ((run (MediaRecorder.create t0 nofile) es).loopIterate o false now).headerWrites ≠
      (run (MediaRecorder.create t0 nofile) es).headerWrites) :
    ((run (MediaRecorder.create t0 nofile) es).loopIterate o false now).status =
      ContextStatus.error ∧
    (∀ f ok, ((run (MediaRecorder.create t0 nofile) es).loopIterate o false now).onFrame f ok =
      (run (MediaRecorder.create t0 nofile) es).loopIterate o false now) ∧
    (∀ o2 h2 n2,
      (((run (MediaRecorder.create t0 nofile) es).loopIterate o false now).loopIterate o2 h2 n2).written =
        ((run (MediaRecorder.create t0 nofile) es).loopIterate o false now).written ∧
      (((run (MediaRecorder.create t0 nofile) es).loopIterate o false now).loopIterate o2 h2 n2).audioQueue =
        ((run (MediaRecorder.create t0 nofile) es).loopIterate o false now).audioQueue ∧
      (((run (MediaRecorder.create t0 nofile) es).loopIterate o false now).loopIterate o2 h2 n2).videoQueue =
        ((run (MediaRecorder.create t0 nofile) es).loopIterate o false now).videoQueue) ∧
    ((run (MediaRecorder.create t0 nofile) es).loopIterate o false now).close.muxing = false ∧
    ((run (MediaRecorder.create t0 nofile) es).loopIterate o false now).close.trailerWrites =
      ((run (MediaRecorder.create t0 nofile) es).loopIterate o false now).trailerWrites + 1 := by
  obtain ⟨_, _, _, _, _, h6, _⟩ := inv_run t0 nofile es
  rcases loopIterate_header_cases (run (MediaRecorder.create t0 nofile) es) o false now with
    hsame | ⟨halive, _, _, hau, hv, _, hpost⟩
  · exact absurd hsame hinc
  · rw [if_neg (by simp)] at hpost
    obtain ⟨l1, l2, l3, _⟩ :=
      loopIterate_const (run (MediaRecorder.create t0 nofile) es) o false now
    have hau2 : ((run (MediaRecorder.create t0 nofile) es).loopIterate o false now).audioStream.isSome = true := by
      rw [l1]; exact hau
    have hv2 : ((run (MediaRecorder.create t0 nofile) es).loopIterate o false now).videoStream.isSome = true := by
      rw [l2]; exact hv
    have hc2 : ((run (MediaRecorder.create t0 nofile) es).loopIterate o false now).hasContext = true := by
      rw [l3]; exact h6 halive
    obtain ⟨t1, _, t3⟩ :=
      close_writes_trailer ((run (MediaRecorder.create t0 nofile) es).loopIterate o false now)
        hau2 hv2 hc2
    refine ⟨hpost, ?_, ?_, t3, t1⟩
    · intro f ok
      exact onFrame_error _ f ok hpost
    · intro o2 h2 n2
      obtain ⟨w1, w2, w3, _⟩ := loopIterate_error_noop _ o2 h2 n2 hpost
      exact ⟨w1, w2, w3⟩

/-- Witness for C5 (amended): instantiated on the concrete header-failure
trace, close() after the failure performs one trailer write. -/
theorem C5_after_header_failure_witness :
    ((run (MediaRecorder.create 0 false) bothStreamsTrace).loopIterate true false 10).close.trailerWrites =
      ((run (MediaRecorder.create 0 false) bothStreamsTrace).loopIterate true false 10).trailerWrites + 1 :=
  (C5_after_header_failure 0 false bothStreamsTrace true 10 (by decide)).2.2.2.2

/-- Counterexample for C6: the header-failure session never has status
`Context_READY` at any point of its trace, yet closing it writes a
trailer, because both track descriptors and the context are non-null. -/
theorem C6_counterexample :
    ((run (MediaRecorder.create 0 false) []).status ≠ ContextStatus.ready ∧
     (run (MediaRecorder.create 0 false) [Event.frame sampleVideoFrame true]).status ≠
       ContextStatus.ready ∧
     (run (MediaRecorder.create 0 false) bothStreamsTrace).status ≠ ContextStatus.ready ∧
     (run (MediaRecorder.create 0 false) headerFailTrace).status ≠ ContextStatus.ready ∧
     (run (MediaRecorder.create 0 false) (headerFailTrace ++ [Event.closeCall])).status ≠
       ContextStatus.ready) ∧
    (run (MediaRecorder.create 0 false) (headerFailTrace ++ [Event.closeCall])).trailerWrites = 1 := by
  decide

/-- C6 (amended): `close()` writes a trailer iff both track descriptors and
the context are non-null at the call — reaching `Context_READY` is
sufficient but not necessary (a header-write failure also leaves both
descriptors non-null); over any execution at most one trailer is written
and the context is released at most once; a session closed while `Ready`
with a live context gets exactly one trailer and one release; and
destruction performs `close()` exactly when `m_muxing` is still set, so a
second finalization after `close()` is a no-op. -/
theorem C6_close_finalization (t0 : Nat) (nofile : Bool) (es : List Event) :
    ((run (MediaRecorder.create t0 nofile) es).close.trailerWrites =
      (run (MediaRecorder.create t0 nofile) es).trailerWrites +
        (if ((run (MediaRecorder.create t0 nofile) es).audioStream.isSome &&
             (run (MediaRecorder.create t0 nofile) es).videoStream.isSome &&
             (run (MediaRecorder.create t0 nofile) es).hasContext) = true then 1 else 0)) ∧
    (run (MediaRecorder.create t0 nofile) es).trailerWrites ≤ 1 ∧
    (run (MediaRecorder.create t0 nofile) es).contextReleases ≤ 1 ∧
    ((run (MediaRecorder.create t0 nofile) es).status = ContextStatus.ready →
      (run (MediaRecorder.create t0 nofile) es).hasContext = true →
      (run (MediaRecorder.create t0 nofile) es).close.trailerWrites = 1 ∧
      (run (MediaRecorder.create t0 nofile) es).close.contextReleases = 1) ∧
    ((run (MediaRecorder.create t0 nofile) es).muxing = true →
      (run (MediaRecorder.create t0 nofile) es).destruct =
        (run (MediaRecorder.create t0 nofile) es).close) ∧
    ((run (MediaRecorder.create t0 nofile) es).muxing = false →
      (run (MediaRecorder.create t0 nofile) es).destruct =
        (run (MediaRecorder.create t0 nofile) es)) ∧
    (run (MediaRecorder.create t0 nofile) es).close.destruct =
      (run (MediaRecorder.create t0 nofile) es).close := by
  obtain ⟨_, _, _, _, _, _, h7, h8, h9, h10⟩ := inv_run t0 nofile es
  refine ⟨close_trailer_count _, h8, h9, ?_,
    destruct_of_muxing _, destruct_of_not_muxing _, ?_⟩
  · intro hready hctx
    obtain ⟨hau, hv⟩ := h10 hready
    obtain ⟨t1, t2, _⟩ := close_writes_trailer _ hau hv hctx
    obtain ⟨z1, z2⟩ := h7 hctx
    rw [t1, t2, z1, z2]
    exact ⟨rfl, rfl⟩
  · exact destruct_of_not_muxing _ (close_const _).2.2.2.2.2.2.2.2.1

/-- Witness for C6 (amended): closing the session that reached Ready writes
exactly one trailer. -/
theorem C6_close_finalization_witness :
    (run (MediaRecorder.create 0 false) readyTrace).close.trailerWrites = 1 :=
  ((C6_close_finalization 0 false readyTrace).2.2.2.1 (by decide) (by decide)).1

/-- C7: in every live writer-loop iteration that starts in `Context_READY`,
every currently queued audio frame is popped and written via the audio
path, in queue order, before every currently queued video frame is popped
and written via the video path — a fixed audio-before-video drain order,
not a merge by timestamp. -/
theorem C7_audio_drained_before_video (t0 : Nat) (nofile : Bool) (es : List Event)
    (o hOk : Bool) (now : Nat)
    (hready : (run (MediaRecorder.create t0 nofile) es).status = ContextStatus.ready)
    (halive : (run (MediaRecorder.create t0 nofile) es).loopAlive = true)
    (hmux : (run (MediaRecorder.create t0 nofile) es).muxing = true) :
    (run (MediaRecorder.create t0 nofile) es).loopIterate o hOk now =
      { run (MediaRecorder.create t0 nofile) es with
        audioQueue := []
        videoQueue := []
        written := (run (MediaRecorder.create t0 nofile) es).written ++
          (run (MediaRecorder.create t0 nofile) es).audioQueue.map
            (audioPacketOf (run (MediaRecorder.create t0 nofile) es) now) ++
          (run (MediaRecorder.create t0 nofile) es).videoQueue.map
            (videoPacketOf (run (MediaRecorder.create t0 nofile) es) now) } := by
  obtain ⟨hau, hv⟩ := (inv_run t0 nofile es).2.2.2.2.2.2.2.2.2 hready
  unfold MediaRecorder.loopIterate
  rw [if_neg (by simp [halive]), if_neg (by simp [hmux])]
  simp only [hready]
  rw [drainQueues_eq]
  rw [if_pos hau, if_pos hv, hready]

/-- Witness for C7: on a Ready-state trace with one queued frame per track,
the iteration appends the audio packet list before the video packet list. -/
theorem C7_audio_drained_before_video_witness :
    ((run (MediaRecorder.create 0 false)
      (readyTrace ++ [Event.frame sampleVideoFrame2 true, Event.frame sampleAudioFrame2 true])).loopIterate
        true true 2000).written =
      (run (MediaRecorder.create 0 false)
        (readyTrace ++ [Event.frame sampleVideoFrame2 true, Event.frame sampleAudioFrame2 true])).written ++
      (run (MediaRecorder.create 0 false)
        (readyTrace ++ [Event.frame sampleVideoFrame2 true, Event.frame sampleAudioFrame2 true])).audioQueue.map
        (audioPacketOf (run (MediaRecorder.create 0 false)
          (readyTrace ++ [Event.frame sampleVideoFrame2 true, Event.frame sampleAudioFrame2 true])) 2000) ++
      (run (MediaRecorder.create 0 false)
        (readyTrace ++ [Event.frame sampleVideoFrame2 true, Event.frame sampleAudioFrame2 true])).videoQueue.map
        (videoPacketOf (run (MediaRecorder.create 0 false)
          (readyTrace ++ [Event.frame sampleVideoFrame2 true, Event.frame sampleAudioFrame2 true])) 2000) :=
  congrArg MediaRecorder.written
    (C7_audio_drained_before_video 0 false
      (readyTrace ++ [Event.frame sampleVideoFrame2 true, Event.frame sampleAudioFrame2 true])
      true true 2000 (by decide) (by decide) (by decide))

/-- Counterexample for C8: in Scenario A (three video frames then one audio
frame pushed before any draining), the drain cycle writes the audio packet
(stream index 1) FIRST, before the three video packets (stream index 0) —
the opposite of the claimed video-before-audio order. -/
theorem C8_counterexample :
    ((run (MediaRecorder.create 0 false) scenarioATrace).written.map fun p => p.streamIndex) =
      [1, 0, 0, 0] := by decide

/-- C8 (amended): pushing 3 video frames and then 1 audio frame before any
draining creates the audio track only after the video track (the audio
descriptor is still absent after all three video frames), writes nothing
before the drain, and the single drain cycle then writes all 4 frames —
with the audio frame written before the three video frames, per the
audio-before-video drain order, the video frames keeping their push
order. -/
theorem C8_scenario_a :
    (run (MediaRecorder.create 0 false) [Event.frame sampleVideoFrame true]).videoStream.isSome =
      true ∧
    (run (MediaRecorder.create 0 false) [Event.frame sampleVideoFrame true]).audioStream = none ∧
    (run (MediaRecorder.create 0 false)
      [Event.frame sampleVideoFrame true, Event.frame sampleVideoFrame2 true,
       Event.frame sampleVideoFrame3 true]).audioStream = none ∧
    (run (MediaRecorder.create 0 false)
      [Event.frame sampleVideoFrame true, Event.frame sampleVideoFrame2 true,
       Event.frame sampleVideoFrame3 true, Event.frame sampleAudioFrame true]).audioStream.isSome =
      true ∧
    (run (MediaRecorder.create 0 false)
      [Event.frame sampleVideoFrame true, Event.frame sampleVideoFrame2 true,
       Event.frame sampleVideoFrame3 true, Event.frame sampleAudioFrame true]).written = [] ∧
    (run (MediaRecorder.create 0 false) scenarioATrace).written =
      [{ data := 4, size := 5, pts := 30, streamIndex := 1 },
       { data := 1, size := 10, pts := 30, streamIndex := 0 },
       { data := 2, size := 10, pts := 30, streamIndex := 0 },
       { data := 3, size := 10, pts := 30, streamIndex := 0 }] ∧
    (run (MediaRecorder.create 0 false) scenarioATrace).audioQueue = [] ∧
    (run (MediaRecorder.create 0 false) scenarioATrace).videoQueue = [] := by decide

end Mcu
